import Mathlib

/-!
# Verification of the multi-agent tourism assistant pipeline

Shallow embedding of `src/streamlit_app.py`. Each Python agent method becomes
a pure Lean function; the HTTP round trip of each agent is abstracted as a
provider response value (either a failure — network error, non-success status,
or JSON parse failure, all collapsed by the Python `except` into one case — or
the parsed JSON payload restricted to the fields the code reads). Streamlit
side effects (`st.error`, `st.success`, panels, …) are modelled as an explicit
event list. Numbers are modelled as `Rat` (the code does no arithmetic on
them, only copying), and Python dicts of string tags as association lists.
-/

namespace TourismApp

/-- `@dataclass Location` from the source. -/
structure Location where
  name : String
  latitude : Rat
  longitude : Rat
  display_name : String
deriving Repr, DecidableEq

/-- `@dataclass WeatherInfo` from the source. -/
structure WeatherInfo where
  temperature : Rat
  rain_chance : Rat
  weather_code : Int
  description : String
deriving Repr, DecidableEq

/-- `@dataclass Place` from the source. -/
structure Place where
  name : String
  type : String
  latitude : Rat
  longitude : Rat
deriving Repr, DecidableEq

/-- Streamlit side effects of one `process_query` run, in emission order.
`geoDiag`, `weatherDiag`, `placesDiag` are the `st.error(f"... error: {e}")`
diagnostics of the three agents; `notFound` is the "I don't know where …"
error; `found` is the `st.success` notice; `weatherCall` / `placesCall` mark
the invocation of the corresponding agent method; `weatherPanel` /
`placesPanel` are the populated result panels and `placesWarning` the
"No specific tourist attractions found" warning. -/
inductive Event where
  | geoDiag : Event
  | notFound (place : String) : Event
  | found (display_name : String) : Event
  | weatherCall : Event
  | weatherDiag : Event
  | weatherPanel (w : WeatherInfo) : Event
  | placesCall : Event
  | placesDiag : Event
  | placesPanel (ps : List Place) : Event
  | placesWarning : Event
deriving Repr, DecidableEq

/-! ## Geocode agent -/

/-- One element of the JSON array returned by the geocoding endpoint,
restricted to the fields `get_coordinates` reads (`lat` and `lon` arrive as
numeric strings already converted by `float(...)`, modelled as `Rat`). -/
structure GeoMatch where
  lat : Rat
  lon : Rat
  display_name : String
deriving Repr, DecidableEq

/-- The outcome of the geocoding HTTP round trip: `failure` covers a network
error, a non-success HTTP status or an unparsable body (all landing in the
Python `except` branch); `success` carries the parsed JSON array. -/
inductive GeoResponse where
  | failure : GeoResponse
  | success (hits : List GeoMatch) : GeoResponse
deriving Repr, DecidableEq

/-- `GeocodeAgent.get_coordinates`: on failure, emit the geocoding diagnostic
and return `None`; on an empty match list (`if not data`) return `None`
silently; otherwise build a `Location` from the first match. -/
def get_coordinates (place_name : String) (resp : GeoResponse) :
    List Event × Option Location :=
  match resp with
  | .failure => ([Event.geoDiag], none)
  | .success [] => ([], none)
  | .success (m :: _) =>
      ([], some (Location.mk place_name m.lat m.lon m.display_name))

/-! ## Weather agent -/

/-- The outcome of the weather HTTP round trip. `success` flattens the fields
the code reads: `current.temperature_2m` and `current.weather_code` (a missing
`current` object behaves exactly like one missing both fields, since the code
does `data.get('current', {})` and then `.get(..., 0)`), and
`daily.precipitation_probability_max` (`none` when the key is absent). -/
inductive WeatherResponse where
  | failure : WeatherResponse
  | success (temperature_2m : Option Rat) (weather_code : Option Int)
      (precipitation_probability_max : Option (List Rat)) : WeatherResponse
deriving Repr, DecidableEq

/-- The static `weather_codes` dict of `WeatherAgent._get_weather_description`. -/
def weather_codes : List (Int × String) :=
  [(0, "clear sky"), (1, "mainly clear"), (2, "partly cloudy"), (3, "overcast"),
   (45, "foggy"), (48, "foggy"), (51, "light drizzle"), (53, "moderate drizzle"),
   (55, "dense drizzle"), (61, "slight rain"), (63, "moderate rain"),
   (65, "heavy rain"), (71, "slight snow"), (73, "moderate snow"),
   (75, "heavy snow"), (95, "thunderstorm")]

/-- `WeatherAgent._get_weather_description`: `weather_codes.get(code,
"unknown weather")`. -/
def get_weather_description (code : Int) : String :=
  (weather_codes.lookup code).getD "unknown weather"

/-- `WeatherAgent.get_weather`: on failure, emit the weather diagnostic and
return `None`; on success, extract temperature (default 0), rain chance (first
element of the daily precipitation series when present and non-empty, else 0)
and weather code (default 0), and map the code to a description. -/
def get_weather (_location : Location) (resp : WeatherResponse) :
    List Event × Option WeatherInfo :=
  match resp with
  | .failure => ([Event.weatherDiag], none)
  | .success temp wc precip =>
      let rain_chance : Rat :=
        match precip with
        | some (x :: _) => x
        | some [] => 0
        | none => 0
      let weather_code := wc.getD 0
      ([], some (WeatherInfo.mk (temp.getD 0) rain_chance weather_code
          (get_weather_description weather_code)))

/-! ## Places agent -/

/-- The `center` sub-object of an Overpass element; the code accesses
`center['lat']` and `center['lon']` directly, so a missing key there raises
`KeyError` (caught only by the outer `except`). -/
structure Center where
  lat : Option Rat
  lon : Option Rat
deriving Repr, DecidableEq

/-- One element of the `elements` array of the Overpass response, restricted
to the fields the code reads. `tags` is the tag dict as an association list
(first binding of a key wins, matching dict lookup). -/
structure OsmElement where
  lat : Option Rat
  lon : Option Rat
  center : Option Center
  tags : List (String × String)
deriving Repr, DecidableEq

/-- The outcome of the Overpass HTTP round trip. A response object lacking the
`elements` key behaves exactly like `success []` (`data.get('elements', [])`). -/
inductive PlacesResponse where
  | failure : PlacesResponse
  | success (elements : List OsmElement) : PlacesResponse
deriving Repr, DecidableEq

/-- Python `tags.get(key, default)` on the tag dict. -/
def tagsGet (tags : List (String × String)) (key : String) (dflt : String) :
    String :=
  (tags.lookup key).getD dflt

/-- One step of Python `str.title()` over the character list: an alphabetic
character is uppercased after a non-alphabetic character (word start) and
lowercased after an alphabetic one; non-alphabetic characters pass through.
`prevAlpha` records whether the previous character was alphabetic. -/
def titleAux (prevAlpha : Bool) : List Char → List Char
  | [] => []
  | c :: cs =>
      (if c.isAlpha then (if prevAlpha then c.toLower else c.toUpper) else c)
        :: titleAux c.isAlpha cs

/-- Python `str.title()` (over the ASCII letters the tag values use). -/
def pyTitle (s : String) : String :=
  String.mk (titleAux false s.data)

/-- Python `str.replace(pat, rep)` for a single-character pattern — the only
form the source uses (`.replace('_', ' ')`): every occurrence of `pat` is
replaced by `rep`. -/
def pyReplaceChar (pat rep : Char) : List Char → List Char
  | [] => []
  | c :: cs => (if c = pat then rep else c) :: pyReplaceChar pat rep cs

/-- The category normalization applied to a tag value:
`.replace('_', ' ').title()`. -/
def normalizeCategory (v : String) : String :=
  pyTitle (String.mk (pyReplaceChar '_' ' ' v.data))

/-- The display category of an accepted candidate:
`tags.get('tourism', tags.get('historic', 'attraction'))` followed by
`.replace('_', ' ').title()`. -/
def displayType (tags : List (String × String)) : String :=
  normalizeCategory (tagsGet tags "tourism" (tagsGet tags "historic" "attraction"))

/-- Outcome of the coordinate-determination step at the top of the loop body:
`found` when `'lat' in element and 'lon' in element`, or when that fails but a
`center` object with both keys is present; `skip` (`continue`) when neither the
direct pair nor a `center` exists; `err` when a `center` exists but lacks a
key, raising `KeyError` into the outer `except`. -/
inductive CoordResult where
  | found (lat lon : Rat) : CoordResult
  | skip : CoordResult
  | err : CoordResult
deriving Repr, DecidableEq

/-- The coordinate determination of one loop iteration of
`get_tourist_attractions`. -/
def elemCoords (e : OsmElement) : CoordResult :=
  match e.lat, e.lon with
  | some la, some lo => .found la lo
  | _, _ =>
      match e.center with
      | some c =>
          match c.lat, c.lon with
          | some la, some lo => .found la lo
          | _, _ => .err
      | none => .skip

/-- The `for element in data.get('elements', [])` loop of
`get_tourist_attractions`. `places` is the accumulated result (in encounter
order) and `seen` the `seen_names` set. Returns `.error ()` when an iteration
raises (`KeyError` on a malformed `center`), which the caller's `except` turns
into an empty list plus a diagnostic. The `len(places) >= limit` break is
tested only after appending, exactly as in the source. -/
def poiLoop (limit : Nat) : List OsmElement → List Place → List String →
    Except Unit (List Place)
  | [], places, _ => .ok places
  | e :: rest, places, seen =>
      match elemCoords e with
      | .err => .error ()
      | .skip => poiLoop limit rest places seen
      | .found la lo =>
          let name := tagsGet e.tags "name" ""
          if name = "" ∨ name ∈ seen then
            poiLoop limit rest places seen
          else
            let places' := places ++ [Place.mk name (displayType e.tags) la lo]
            if limit ≤ places'.length then .ok places'
            else poiLoop limit rest places' (name :: seen)

/-- `PlacesAgent.get_tourist_attractions`: on a failed round trip, or on an
exception raised while post-processing, emit the places diagnostic and return
the empty list; otherwise run the filtering loop over the elements. -/
def get_tourist_attractions (_location : Location) (limit : Nat)
    (resp : PlacesResponse) : List Event × List Place :=
  match resp with
  | .failure => ([Event.placesDiag], [])
  | .success elems =>
      match poiLoop limit elems [] [] with
      | .ok ps => ([], ps)
      | .error _ => ([Event.placesDiag], [])

/-- The `Place` a single candidate element would contribute, ignoring the
dedup set and the limit: the coordinate determination of the loop body
followed by the name check and the category normalization. Used to state that
the returned list preserves encounter order: the result is a sublist of
`elems.filterMap buildPlace`. -/
def buildPlace (e : OsmElement) : Option Place :=
  match elemCoords e with
  | .found la lo =>
      if tagsGet e.tags "name" "" = "" then none
      else some (Place.mk (tagsGet e.tags "name" "") (displayType e.tags) la lo)
  | .skip => none
  | .err => none

/-! ## Orchestrator -/

/-- The three provider responses one invocation of `process_query` consumes. -/
structure ProviderEnv where
  geo : GeoResponse
  weather : WeatherResponse
  places : PlacesResponse
deriving Repr, DecidableEq

/-- The observable outcome of one `process_query` invocation: the emitted
event list plus the values of the `location`, `weather` and `places` locals
(`weather = none` / `places = none` when the corresponding flag was false and
the lookup was never invoked). -/
structure QueryTrace where
  events : List Event
  location : Option Location
  weather : Option (Option WeatherInfo)
  places : Option (List Place)
deriving Repr, DecidableEq

/-- The events the weather stage emits after the `weatherCall` itself: the
agent's own diagnostics, then (when a `WeatherInfo` came back, `if weather:`)
the populated weather panel. -/
def weatherTail (loc : Location) (resp : WeatherResponse) : List Event :=
  (get_weather loc resp).1 ++
    (match (get_weather loc resp).2 with
     | some w => [Event.weatherPanel w]
     | none => [])

/-- The events the places stage emits after the `placesCall` itself: the
agent's own diagnostics, then either the populated attractions list
(`if places:`) or the "no attractions" warning (`else:`). The orchestrator
always calls with `limit=5`. -/
def placesTail (loc : Location) (resp : PlacesResponse) : List Event :=
  (get_tourist_attractions loc 5 resp).1 ++
    (if (get_tourist_attractions loc 5 resp).2.isEmpty then [Event.placesWarning]
     else [Event.placesPanel (get_tourist_attractions loc 5 resp).2])

/-- `TourismParentAgent.process_query`: geocode first; on `None`, emit the
not-found error and stop. Otherwise emit the success notice, then (flag
permitting) fetch weather and show its panel on success, then (flag
permitting) fetch places and show the list or the no-attractions warning.
The `weather` / `places` fields record the corresponding local variable,
`none` when the flag was false and the lookup never ran. -/
def process_query (place_name : String) (gw gp : Bool) (env : ProviderEnv) :
    QueryTrace :=
  match (get_coordinates place_name env.geo).2 with
  | none =>
      QueryTrace.mk
        ((get_coordinates place_name env.geo).1 ++ [Event.notFound place_name])
        none none none
  | some loc =>
      QueryTrace.mk
        ((get_coordinates place_name env.geo).1 ++
          Event.found loc.display_name ::
            ((if gw then Event.weatherCall :: weatherTail loc env.weather else []) ++
             (if gp then Event.placesCall :: placesTail loc env.places else [])))
        (some loc)
        (if gw then some (get_weather loc env.weather).2 else none)
        (if gp then some (get_tourist_attractions loc 5 env.places).2 else none)

/-! ## Concrete fixtures (used by witnesses and counterexamples) -/

/-- A fixture location for instantiating the agent functions. -/
def sampleLocation : Location :=
  Location.mk "Paris" 1 2 "Paris, France"

/-- A well-formed Overpass element: direct coordinates, a name, a tourism tag. -/
def museumElem : OsmElement :=
  OsmElement.mk (some 1) (some 2) none [("name", "Louvre"), ("tourism", "museum")]

/-- An element with neither a direct lat/lon pair nor a center sub-structure. -/
def noCoordElem : OsmElement :=
  OsmElement.mk none (some 7) none [("name", "Ghost")]

/-- An element whose `center` object lacks its keys: accessing it raises
`KeyError` in the Python loop. -/
def badCenterElem : OsmElement :=
  OsmElement.mk none none (some (Center.mk none none)) []

/-- An element with coordinates but an empty-string `name` tag. -/
def emptyNameElem : OsmElement :=
  OsmElement.mk (some 5) (some 6) none [("name", ""), ("tourism", "artwork")]

/-- A provider environment whose geocoder returns zero matches. -/
def notFoundEnv : ProviderEnv :=
  ProviderEnv.mk (GeoResponse.success []) WeatherResponse.failure
    PlacesResponse.failure

/-- A provider environment with one geocoding match, a failing weather
provider and one places candidate. -/
def parisEnv : ProviderEnv :=
  ProviderEnv.mk (GeoResponse.success [GeoMatch.mk 1 2 "Paris, France"])
    WeatherResponse.failure (PlacesResponse.success [museumElem])

/-! ## Helper lemmas -/

/-- A key absent from an association list looks up to `none`. -/
theorem lookup_eq_none_of_not_mem {β : Type} (l : List (Int × β)) (c : Int)
    (h : c ∉ l.map Prod.fst) : l.lookup c = none := by
  induction l with
  | nil => rfl
  | cons kv t ih =>
      simp only [List.map_cons, List.mem_cons, not_or] at h
      have hb : (c == kv.1) = false := beq_eq_false_iff_ne.mpr h.1
      simp [List.lookup, hb, ih h.2]

/-- Neither agent-invocation marker occurs among the events of the weather
stage that follow the `weatherCall` marker itself. -/
theorem weatherTail_no_calls (loc : Location) (resp : WeatherResponse) :
    Event.weatherCall ∉ weatherTail loc resp ∧
      Event.placesCall ∉ weatherTail loc resp := by
  cases resp <;> simp [weatherTail, get_weather]

/-- Neither agent-invocation marker occurs among the events of the places
stage that follow the `placesCall` marker itself. -/
theorem placesTail_no_calls (loc : Location) (resp : PlacesResponse) :
    Event.weatherCall ∉ placesTail loc resp ∧
      Event.placesCall ∉ placesTail loc resp := by
  rcases resp with _ | elems
  · simp [placesTail, get_tourist_attractions]
  · rcases hk : poiLoop 5 elems [] [] with u | ps
    · simp [placesTail, get_tourist_attractions, hk]
    · cases ps <;> simp [placesTail, get_tourist_attractions, hk]

/-- If the loop starts strictly below the limit, the accepted list never
ends up longer than the limit: the post-append break fires as soon as the
limit is reached. -/
theorem poiLoop_length_le (limit : Nat) (elems : List OsmElement) :
    ∀ (places : List Place) (seen : List String) (ps : List Place),
      places.length < limit →
      poiLoop limit elems places seen = Except.ok ps →
      ps.length ≤ limit := by
  induction elems with
  | nil =>
      intro places seen ps h hok
      simp only [poiLoop] at hok
      cases hok
      omega
  | cons e rest ih =>
      intro places seen ps h hok
      cases hc : elemCoords e with
      | err => simp [poiLoop, hc] at hok
      | skip =>
          simp only [poiLoop, hc] at hok
          exact ih _ _ _ h hok
      | found la lo =>
          simp only [poiLoop, hc] at hok
          have hlen : (places ++
              [Place.mk (tagsGet e.tags "name" "") (displayType e.tags) la
                lo]).length = places.length + 1 := by
            simp
          split at hok
          · exact ih _ _ _ h hok
          · split at hok
            · cases hok
              omega
            · refine ih _ _ _ ?_ hok
              omega

/-- Accepted names stay pairwise distinct: `seen_names` contains every name
already accepted, and a candidate whose name is in `seen_names` is skipped. -/
theorem poiLoop_names_nodup (limit : Nat) (elems : List OsmElement) :
    ∀ (places : List Place) (seen : List String) (ps : List Place),
      (places.map Place.name).Nodup →
      (∀ a ∈ places.map Place.name, a ∈ seen) →
      poiLoop limit elems places seen = Except.ok ps →
      (ps.map Place.name).Nodup := by
  induction elems with
  | nil =>
      intro places seen ps h1 h2 hok
      simp only [poiLoop] at hok
      cases hok
      exact h1
  | cons e rest ih =>
      intro places seen ps h1 h2 hok
      cases hc : elemCoords e with
      | err => simp [poiLoop, hc] at hok
      | skip =>
          simp only [poiLoop, hc] at hok
          exact ih _ _ _ h1 h2 hok
      | found la lo =>
          simp only [poiLoop, hc] at hok
          split at hok
          · exact ih _ _ _ h1 h2 hok
          · next hn =>
              push_neg at hn
              have hnotin : tagsGet e.tags "name" "" ∉ places.map Place.name :=
                fun hmem => hn.2 (h2 _ hmem)
              have h1' : ((places ++
                  [Place.mk (tagsGet e.tags "name" "") (displayType e.tags) la lo]).map
                    Place.name).Nodup := by
                rw [List.map_append, List.nodup_append_comm]
                simp only [List.map_cons, List.map_nil, List.cons_append,
                  List.nil_append, List.nodup_cons]
                exact ⟨hnotin, h1⟩
              have h2' : ∀ a ∈ (places ++
                  [Place.mk (tagsGet e.tags "name" "") (displayType e.tags) la
                    lo]).map Place.name,
                  a ∈ tagsGet e.tags "name" "" :: seen := by
                intro a ha
                rw [List.map_append] at ha
                rcases List.mem_append.mp ha with ha | ha
                · exact List.mem_cons_of_mem _ (h2 _ ha)
                · simp only [List.map_cons, List.map_nil, List.mem_singleton] at ha
                  simp [ha]
              split at hok
              · cases hok
                exact h1'
              · exact ih _ _ _ h1' h2' hok

/-- The loop only appends: the result extends the incoming accumulator by a
tail that is a sublist — in encounter order — of the places the candidates
would individually contribute. -/
theorem poiLoop_sublist (limit : Nat) (elems : List OsmElement) :
    ∀ (places : List Place) (seen : List String) (ps : List Place),
      poiLoop limit elems places seen = Except.ok ps →
      ∃ tail, ps = places ++ tail ∧ tail.Sublist (elems.filterMap buildPlace) := by
  induction elems with
  | nil =>
      intro places seen ps hok
      simp only [poiLoop] at hok
      cases hok
      exact ⟨[], by simp, by simp⟩
  | cons e rest ih =>
      intro places seen ps hok
      cases hc : elemCoords e with
      | err => simp [poiLoop, hc] at hok
      | skip =>
          simp only [poiLoop, hc] at hok
          obtain ⟨tail, hps, hsub⟩ := ih _ _ _ hok
          have hb : buildPlace e = none := by simp [buildPlace, hc]
          exact ⟨tail, hps, by simpa [List.filterMap_cons, hb] using hsub⟩
      | found la lo =>
          simp only [poiLoop, hc] at hok
          split at hok
          · next hn =>
              obtain ⟨tail, hps, hsub⟩ := ih _ _ _ hok
              refine ⟨tail, hps, ?_⟩
              rcases hb : buildPlace e with _ | p <;>
                simp only [List.filterMap_cons, hb]
              · exact hsub
              · exact hsub.cons p
          · next hn =>
              push_neg at hn
              have hb : buildPlace e = some
                  (Place.mk (tagsGet e.tags "name" "") (displayType e.tags) la lo) := by
                simp [buildPlace, hc, hn.1]
              split at hok
              · cases hok
                refine ⟨[Place.mk (tagsGet e.tags "name" "") (displayType e.tags) la lo],
                  rfl, ?_⟩
                simp only [List.filterMap_cons, hb]
                exact List.Sublist.cons₂ _ (List.nil_sublist _)
              · obtain ⟨tail, hps, hsub⟩ := ih _ _ _ hok
                refine ⟨Place.mk (tagsGet e.tags "name" "") (displayType e.tags) la lo
                  :: tail, by simp [hps], ?_⟩
                simp only [List.filterMap_cons, hb]
                exact hsub.cons₂ _

/-- Every accepted place has a non-empty name: the `if not name` check skips
empty names before they are appended. -/
theorem poiLoop_names_nonempty (limit : Nat) (elems : List OsmElement) :
    ∀ (places : List Place) (seen : List String) (ps : List Place),
      (∀ p ∈ places, p.name ≠ "") →
      poiLoop limit elems places seen = Except.ok ps →
      ∀ p ∈ ps, p.name ≠ "" := by
  induction elems with
  | nil =>
      intro places seen ps h hok
      simp only [poiLoop] at hok
      cases hok
      exact h
  | cons e rest ih =>
      intro places seen ps h hok
      cases hc : elemCoords e with
      | err => simp [poiLoop, hc] at hok
      | skip =>
          simp only [poiLoop, hc] at hok
          exact ih _ _ _ h hok
      | found la lo =>
          simp only [poiLoop, hc] at hok
          split at hok
          · exact ih _ _ _ h hok
          · next hn =>
              push_neg at hn
              have h' : ∀ p ∈ places ++
                  [Place.mk (tagsGet e.tags "name" "") (displayType e.tags) la lo],
                  p.name ≠ "" := by
                intro p hp
                rcases List.mem_append.mp hp with hp | hp
                · exact h _ hp
                · simp only [List.mem_singleton] at hp
                  subst hp
                  exact hn.1
              split at hok
              · cases hok
                exact h'
              · exact ih _ _ _ h' hok

/-! ## Claims -/

/-- C1: for every place name for which the geocoder returns zero matches,
`process_query` produces no `Location`, records no weather or places result,
and invokes neither the weather lookup nor the places lookup regardless of
the caller flags; the only emitted event is the not-found notice. -/
theorem C1_zero_matches_short_circuits (place : String) (gw gp : Bool)
    (env : ProviderEnv) (h : env.geo = GeoResponse.success []) :
    process_query place gw gp env =
      QueryTrace.mk [Event.notFound place] none none none ∧
    Event.weatherCall ∉ (process_query place gw gp env).events ∧
    Event.placesCall ∉ (process_query place gw gp env).events := by
  obtain ⟨g, w, pl⟩ := env
  cases h
  refine ⟨rfl, ?_, ?_⟩ <;> simp [process_query, get_coordinates]

/-- Witness for C1 at a concrete environment whose geocoder returns zero
matches. -/
theorem C1_witness :
    notFoundEnv.geo = GeoResponse.success [] ∧
    (process_query "Atlantis" true true notFoundEnv =
       QueryTrace.mk [Event.notFound "Atlantis"] none none none ∧
     Event.weatherCall ∉ (process_query "Atlantis" true true notFoundEnv).events ∧
     Event.placesCall ∉ (process_query "Atlantis" true true notFoundEnv).events) :=
  ⟨rfl, C1_zero_matches_short_circuits "Atlantis" true true notFoundEnv rfl⟩

/-- C3: the weather-description mapping is total by construction (it is a
Lean function into `String`); code 0 maps to "clear sky" and every code not
enumerated in the static table — 99 among them — maps to "unknown weather". -/
theorem C3_weather_description_total (c : Int)
    (h : c ∉ weather_codes.map Prod.fst) :
    get_weather_description 0 = "clear sky" ∧
    get_weather_description 99 = "unknown weather" ∧
    get_weather_description c = "unknown weather" := by
  refine ⟨rfl, rfl, ?_⟩
  unfold get_weather_description
  rw [lookup_eq_none_of_not_mem _ _ h]
  rfl

/-- Witness for C3 at the concrete unlisted code 99. -/
theorem C3_witness :
    (99 : Int) ∉ weather_codes.map Prod.fst ∧
    get_weather_description 99 = "unknown weather" :=
  ⟨by decide, (C3_weather_description_total 99 (by decide)).2.2⟩

/-- C4: for every weather-provider response, `rain_chance` of the returned
`WeatherInfo` is the first element of the daily
`precipitation_probability_max` series when that series is present and
non-empty, and 0 when the series is missing or empty (a failed round trip
returns no `WeatherInfo` at all). -/
theorem C4_rain_chance_first_or_zero (loc : Location) (t : Option Rat)
    (wc : Option Int) (p : Option (List Rat)) :
    (get_weather loc WeatherResponse.failure).2 = none ∧
    ((get_weather loc (WeatherResponse.success t wc p)).2.map
        WeatherInfo.rain_chance) =
      some (match p with
            | some (x :: _) => x
            | some [] => 0
            | none => 0) := by
  refine ⟨rfl, ?_⟩
  rcases p with _ | (_ | ⟨x, xs⟩) <;> rfl

/-- C2 (amended): for every provider response, the returned places list has
pairwise distinct names (case-sensitive, first occurrence kept) and lists
accepted candidates in encounter order (it is a sublist of the places the
elements would individually contribute); its length never exceeds the limit
provided the limit is at least 1. (With limit 0 the loop still accepts one
candidate before the post-append break fires — see the counterexample.) -/
theorem C2_pois_nodup_capped_ordered (loc : Location) (limit : Nat)
    (resp : PlacesResponse) :
    (((get_tourist_attractions loc limit resp).2).map Place.name).Nodup ∧
    (1 ≤ limit → (get_tourist_attractions loc limit resp).2.length ≤ limit) ∧
    (∀ elems, resp = PlacesResponse.success elems →
      ((get_tourist_attractions loc limit resp).2).Sublist
        (elems.filterMap buildPlace)) := by
  rcases resp with _ | elems
  · refine ⟨by simp [get_tourist_attractions], by simp [get_tourist_attractions], ?_⟩
    intro elems h
    exact PlacesResponse.noConfusion h
  · rcases hk : poiLoop limit elems [] [] with u | ps
    · refine ⟨by simp [get_tourist_attractions, hk],
        by simp [get_tourist_attractions, hk], ?_⟩
      intro elems' h
      injection h with h'
      subst h'
      simp [get_tourist_attractions, hk]
    · have hres :
          (get_tourist_attractions loc limit (PlacesResponse.success elems)).2 = ps := by
        simp [get_tourist_attractions, hk]
      refine ⟨?_, ?_, ?_⟩
      · rw [hres]
        exact poiLoop_names_nodup limit elems [] [] ps (by simp) (by simp) hk
      · intro hl
        rw [hres]
        exact poiLoop_length_le limit elems [] [] ps (by simpa using hl) hk
      · intro elems' h
        injection h with h'
        subst h'
        rw [hres]
        obtain ⟨tail, hps, hsub⟩ := poiLoop_sublist limit elems [] [] ps hk
        simpa [hps] using hsub

/-- Counterexample to C2 as stated: with limit 0 and a single acceptable
candidate, the returned list has length 1, which exceeds the limit — the
break `len(places) >= limit` is only checked after appending. -/
theorem C2_counterexample :
    ((get_tourist_attractions sampleLocation 0
        (PlacesResponse.success [museumElem])).2).length = 1 ∧
    ¬ ((get_tourist_attractions sampleLocation 0
        (PlacesResponse.success [museumElem])).2).length ≤ 0 := by
  decide

/-- Witness for C2 at the orchestrator's actual limit 5 and one candidate. -/
theorem C2_witness :
    (1 ≤ 5 ∧ (PlacesResponse.success [museumElem] : PlacesResponse) =
        PlacesResponse.success [museumElem]) ∧
    ((((get_tourist_attractions sampleLocation 5
        (PlacesResponse.success [museumElem])).2).map Place.name).Nodup ∧
     (get_tourist_attractions sampleLocation 5
        (PlacesResponse.success [museumElem])).2.length ≤ 5 ∧
     ((get_tourist_attractions sampleLocation 5
        (PlacesResponse.success [museumElem])).2).Sublist
       ([museumElem].filterMap buildPlace)) :=
  ⟨⟨by decide, rfl⟩,
   (C2_pois_nodup_capped_ordered sampleLocation 5 _).1,
   (C2_pois_nodup_capped_ordered sampleLocation 5 _).2.1 (by decide),
   (C2_pois_nodup_capped_ordered sampleLocation 5 _).2.2 [museumElem] rfl⟩

/-- C5: the display type comes from the tourism tag if present, else the
historic tag, else the literal "attraction", then is normalized by replacing
underscores with spaces and title-casing each word; "historic_monument"
normalizes to "Historic Monument" and absence of both tags yields
"Attraction". -/
theorem C5_display_type_derivation (tags : List (String × String)) :
    (∀ v, tags.lookup "tourism" = some v →
        displayType tags = normalizeCategory v) ∧
    (tags.lookup "tourism" = none → ∀ v, tags.lookup "historic" = some v →
        displayType tags = normalizeCategory v) ∧
    (tags.lookup "tourism" = none → tags.lookup "historic" = none →
        displayType tags = "Attraction") ∧
    normalizeCategory "historic_monument" = "Historic Monument" := by
  refine ⟨?_, ?_, ?_, by decide⟩
  · intro v hv
    simp [displayType, tagsGet, hv]
  · intro h0 v hv
    simp [displayType, tagsGet, h0, hv]
  · intro h0 h1
    simp only [displayType, tagsGet, h0, h1, Option.getD_none]
    decide

/-- Witness for C5 at a concrete tag dict carrying
`tourism = historic_monument`. -/
theorem C5_witness :
    ([("tourism", "historic_monument")].lookup "tourism" =
        some "historic_monument") ∧
    displayType [("tourism", "historic_monument")] =
      normalizeCategory "historic_monument" :=
  ⟨by decide,
   (C5_display_type_derivation [("tourism", "historic_monument")]).1
     "historic_monument" (by decide)⟩

/-- C6: a candidate element with neither a direct lat/lon pair (both keys)
nor a center sub-structure is excluded: the loop skips it unchanged, it
contributes no `Place`, and the overall result is as if it were absent. -/
theorem C6_candidate_without_coords_excluded (limit : Nat) (e : OsmElement)
    (rest : List OsmElement)
    (h1 : ¬ (e.lat.isSome ∧ e.lon.isSome)) (h2 : e.center = none) :
    elemCoords e = CoordResult.skip ∧
    buildPlace e = none ∧
    (∀ places seen, poiLoop limit (e :: rest) places seen =
      poiLoop limit rest places seen) ∧
    (∀ loc, get_tourist_attractions loc limit (PlacesResponse.success (e :: rest)) =
      get_tourist_attractions loc limit (PlacesResponse.success rest)) := by
  have hc : elemCoords e = CoordResult.skip := by
    rcases hla : e.lat with _ | la
    · rcases hlo : e.lon with _ | lo <;> simp [elemCoords, hla, hlo, h2]
    · rcases hlo : e.lon with _ | lo
      · simp [elemCoords, hla, hlo, h2]
      · exact absurd ⟨by simp [hla], by simp [hlo]⟩ h1
  have hloop : ∀ places seen, poiLoop limit (e :: rest) places seen =
      poiLoop limit rest places seen := by
    intro places seen
    simp [poiLoop, hc]
  refine ⟨hc, by simp [buildPlace, hc], hloop, ?_⟩
  intro loc
  simp [get_tourist_attractions, hloop [] []]

/-- Witness for C6 at a concrete element with a `lon` but no `lat` and no
`center`. -/
theorem C6_witness :
    (¬ (noCoordElem.lat.isSome ∧ noCoordElem.lon.isSome) ∧
      noCoordElem.center = none) ∧
    (elemCoords noCoordElem = CoordResult.skip ∧
     buildPlace noCoordElem = none ∧
     poiLoop 5 [noCoordElem, museumElem] [] [] = poiLoop 5 [museumElem] [] [] ∧
     get_tourist_attractions sampleLocation 5
         (PlacesResponse.success [noCoordElem, museumElem]) =
       get_tourist_attractions sampleLocation 5
         (PlacesResponse.success [museumElem])) := by
  have h := C6_candidate_without_coords_excluded 5 noCoordElem [museumElem]
    (by decide) rfl
  exact ⟨⟨by decide, rfl⟩, h.1, h.2.1, h.2.2.1 [] [], h.2.2.2 sampleLocation⟩

/-- C8: every failure of the places lookup — a failed round trip as well as
an exception while post-processing — returns the empty list, the same value
a successful lookup with zero features returns; the two outcomes differ only
in the emitted diagnostic. -/
theorem C8_failure_and_empty_success_agree (loc : Location) (limit : Nat) :
    get_tourist_attractions loc limit PlacesResponse.failure =
      ([Event.placesDiag], []) ∧
    (∀ elems, poiLoop limit elems [] [] = Except.error () →
        get_tourist_attractions loc limit (PlacesResponse.success elems) =
          ([Event.placesDiag], [])) ∧
    get_tourist_attractions loc limit (PlacesResponse.success []) = ([], []) ∧
    (get_tourist_attractions loc limit PlacesResponse.failure).2 =
      (get_tourist_attractions loc limit (PlacesResponse.success [])).2 ∧
    (get_tourist_attractions loc limit PlacesResponse.failure).1 ≠
      (get_tourist_attractions loc limit (PlacesResponse.success [])).1 := by
  refine ⟨rfl, ?_, rfl, rfl, by simp [get_tourist_attractions, poiLoop]⟩
  intro elems hk
  simp [get_tourist_attractions, hk]

/-- Witness for C8 at a concrete element whose malformed `center` raises
`KeyError` during post-processing. -/
theorem C8_witness :
    poiLoop 5 [badCenterElem] [] [] = Except.error () ∧
    get_tourist_attractions sampleLocation 5
        (PlacesResponse.success [badCenterElem]) = ([Event.placesDiag], []) :=
  ⟨rfl,
   (C8_failure_and_empty_success_agree sampleLocation 5).2.1 [badCenterElem] rfl⟩

/-- C7: whenever geocoding succeeds, the weather-lookup marker appears in the
event stream exactly when the weather flag is set and the places-lookup
marker exactly when the places flag is set (each lookup is skipped exactly
when its flag is false, and the places decision does not depend on the
weather outcome — a failed weather fetch never prevents the places fetch);
with both flags set the events decompose as the success notice, then the
weather call and its events, then the places call and its events: weather
runs before places. -/
theorem C7_weather_runs_before_places (place : String) (gw gp : Bool)
    (env : ProviderEnv) (m : GeoMatch) (ms : List GeoMatch)
    (h : env.geo = GeoResponse.success (m :: ms)) :
    ((Event.weatherCall ∈ (process_query place gw gp env).events) ↔ gw = true) ∧
    ((Event.placesCall ∈ (process_query place gw gp env).events) ↔ gp = true) ∧
    (gw = true → gp = true →
      (process_query place gw gp env).events =
        [Event.found m.display_name] ++
          Event.weatherCall ::
            (weatherTail (Location.mk place m.lat m.lon m.display_name)
                env.weather ++
              Event.placesCall ::
                placesTail (Location.mk place m.lat m.lon m.display_name)
                  env.places)) := by
  obtain ⟨g, w, pl⟩ := env
  cases h
  have hw := weatherTail_no_calls (Location.mk place m.lat m.lon m.display_name) w
  have hp := placesTail_no_calls (Location.mk place m.lat m.lon m.display_name) pl
  refine ⟨?_, ?_, ?_⟩
  · cases gw <;> cases gp <;>
      simp [process_query, get_coordinates, hw.1, hw.2, hp.1, hp.2]
  · cases gw <;> cases gp <;>
      simp [process_query, get_coordinates, hw.1, hw.2, hp.1, hp.2]
  · intro h1 h2
    subst h1
    subst h2
    simp [process_query, get_coordinates]

/-- Witness for C7 at a concrete environment with one geocoding match and
both flags set (and a failing weather provider, exhibiting that the places
call still runs). -/
theorem C7_witness :
    parisEnv.geo = GeoResponse.success [GeoMatch.mk 1 2 "Paris, France"] ∧
    ((Event.weatherCall ∈ (process_query "Paris" true true parisEnv).events) ∧
     (Event.placesCall ∈ (process_query "Paris" true true parisEnv).events) ∧
     (process_query "Paris" true true parisEnv).events =
       [Event.found "Paris, France"] ++
         Event.weatherCall ::
           (weatherTail (Location.mk "Paris" 1 2 "Paris, France")
               parisEnv.weather ++
             Event.placesCall ::
               placesTail (Location.mk "Paris" 1 2 "Paris, France")
                 parisEnv.places)) := by
  have h := C7_weather_runs_before_places "Paris" true true parisEnv
    (GeoMatch.mk 1 2 "Paris, France") [] rfl
  exact ⟨rfl, h.1.mpr rfl, h.2.1.mpr rfl, h.2.2 rfl rfl⟩

/-- C9: the pipeline is a deterministic function of the place name, the
caller flags and the provider responses: two invocations with the same
inputs and identical provider responses at every stage produce identical
traces (same `Location`, same `WeatherInfo`, same places list element for
element, same events). -/
theorem C9_pipeline_deterministic (place : String) (gw gp : Bool)
    (env1 env2 : ProviderEnv) (hg : env1.geo = env2.geo)
    (hw : env1.weather = env2.weather) (hp : env1.places = env2.places) :
    process_query place gw gp env1 = process_query place gw gp env2 := by
  obtain ⟨g1, w1, p1⟩ := env1
  obtain ⟨g2, w2, p2⟩ := env2
  cases hg; cases hw; cases hp; rfl

/-- Witness for C9 at a concrete environment. -/
theorem C9_witness :
    process_query "Paris" true true parisEnv =
      process_query "Paris" true true parisEnv :=
  C9_pipeline_deterministic "Paris" true true parisEnv parisEnv rfl rfl rfl

/-- C10: a candidate whose `name` tag is the empty string — which is also
what a candidate with no `name` tag at all resolves to, since the default of
`tags.get('name', '')` is the empty string — is skipped by the `if not name`
falsiness check, and no place with an empty name ever appears in any result
list. -/
theorem C10_empty_name_excluded :
    (∀ (limit : Nat) (e : OsmElement) (rest : List OsmElement)
        (places : List Place) (seen : List String) (la lo : Rat),
        elemCoords e = CoordResult.found la lo →
        tagsGet e.tags "name" "" = "" →
        poiLoop limit (e :: rest) places seen =
          poiLoop limit rest places seen) ∧
    (∀ (loc : Location) (limit : Nat) (resp : PlacesResponse) (p : Place),
        p ∈ (get_tourist_attractions loc limit resp).2 → p.name ≠ "") := by
  constructor
  · intro limit e rest places seen la lo hc hname
    simp [poiLoop, hc, hname]
  · intro loc limit resp p hp
    rcases resp with _ | elems
    · simp [get_tourist_attractions] at hp
    · rcases hk : poiLoop limit elems [] [] with u | ps
      · simp [get_tourist_attractions, hk] at hp
      · have hres :
            (get_tourist_attractions loc limit (PlacesResponse.success elems)).2 =
              ps := by
          simp [get_tourist_attractions, hk]
        rw [hres] at hp
        exact poiLoop_names_nonempty limit elems [] [] ps (by simp) hk p hp

/-- Witness for C10 at a concrete element whose `name` tag is the empty
string, followed by a normal candidate. -/
theorem C10_witness :
    (elemCoords emptyNameElem = CoordResult.found 5 6 ∧
      tagsGet emptyNameElem.tags "name" "" = "") ∧
    poiLoop 5 [emptyNameElem, museumElem] [] [] =
      poiLoop 5 [museumElem] [] [] ∧
    ((Place.mk "Louvre" "Museum" 1 2) ∈
        (get_tourist_attractions sampleLocation 5
          (PlacesResponse.success [emptyNameElem, museumElem])).2 ∧
      (Place.mk "Louvre" "Museum" 1 2).name ≠ "") :=
  ⟨⟨rfl, rfl⟩,
   C10_empty_name_excluded.1 5 emptyNameElem [museumElem] [] [] 5 6 rfl rfl,
   by decide,
   C10_empty_name_excluded.2 sampleLocation 5
     (PlacesResponse.success [emptyNameElem, museumElem])
     (Place.mk "Louvre" "Museum" 1 2) (by decide)⟩

end TourismApp
